import Mathlib

/-!
Verification of the SecureLogTI threat-intelligence core: a shallow embedding
of the log parser, the two threat scorers, the reputation client and the
fusion layer, with theorems checking the documented behaviour.

Modelling conventions:
* JavaScript numbers are modelled as `ℚ` (all arithmetic in the embedded code
  is exact decimal arithmetic well inside the double-precision range).
* `Math.round` is `⌊x + 1/2⌋` (JS rounds half toward +∞), `Math.floor` is
  `⌊·⌋`, `Math.min`/`Math.max` are `min`/`max`.
* `Date` values are epoch milliseconds (`ℤ`), as obtained from `getTime()`;
  `Date.now()` is passed in explicitly as a `now` parameter.
* Text that the code scans character-by-character is modelled as `List Char`
  with structural helper functions, so that concrete runs reduce in the
  kernel.  `String` is kept for data that is only stored or compared.
* Mutable module state (the reputation cache, the simulated reputation
  database) is passed explicitly; `Math.random()` samples are oracle
  parameters.
-/

/-- JS `Math.round`: round half toward positive infinity. -/
def jsRound (q : ℚ) : ℤ := ⌊q + 1/2⌋

/-- JS truthiness chain `a || b` for string-valued fields: an absent field or
an empty string falls through to the default. -/
def jsOrS (a : Option String) (b : String) : String :=
  match a with
  | some s => if s = "" then b else s
  | none => b

/-- Threat level enumeration (`ThreatLevel` in `types.ts`). -/
inductive ThreatLevel
  | low
  | medium
  | high
deriving DecidableEq, Repr

/-- Risk level enumeration used by reputation records. -/
inductive RiskLevel
  | low
  | medium
  | high
  | critical
deriving DecidableEq, Repr

/-- Reputation trend enumeration. -/
inductive ReputationTrend
  | improving
  | stable
  | declining
deriving DecidableEq, Repr

/-! ### Direct scorer (`threat-algorithm.ts`) -/

/-- Scoring constants of `threat-algorithm.ts`. -/
def SCORE_FAILED_1_2 : ℚ := 10

def SCORE_FAILED_3_4 : ℚ := 30

def SCORE_FAILED_5_PLUS : ℚ := 70

/-- `scoreToSeverity` (`threat-algorithm.ts` lines 41-45): severity mapping of
the direct scorer. -/
def scoreToSeverity (score : ℚ) : ThreatLevel :=
  if 60 ≤ score then .high
  else if 30 ≤ score then .medium
  else .low

/-- Result of `calculateThreatScore` (`breakdown` sub-object inlined). -/
structure ThreatScoreResult where
  score : ℚ
  threatLevel : ThreatLevel
  failedLoginScore : ℚ
  repeatedAccessScore : ℚ
  baseScore : ℚ
  isMalicious : Bool
  recommendation : String
deriving DecidableEq, Repr

/-- `calculateThreatScore` (`threat-algorithm.ts` lines 218-249): the direct
(quick preview) scorer. -/
def calculateThreatScore (failedLogins repeatedAccess : ℚ)
    (additionalFactors : ℚ := 0) : ThreatScoreResult :=
  let failedLoginScore : ℚ :=
    if 5 ≤ failedLogins then SCORE_FAILED_5_PLUS
    else if 3 ≤ failedLogins then SCORE_FAILED_3_4
    else if 1 ≤ failedLogins then SCORE_FAILED_1_2
    else 0
  let repeatedAccessScore : ℚ := min ((jsRound (repeatedAccess * (1/2)) : ℤ) : ℚ) 30
  let score0 := failedLoginScore + repeatedAccessScore + additionalFactors
  let score := min score0 100
  let threatLevel := scoreToSeverity score
  let isMalicious := decide (60 ≤ score)
  let rec0 := "Continue monitoring. No immediate action required."
  let rec1 := if threatLevel = .medium
    then "Monitor closely. Implement rate limiting and review access patterns."
    else rec0
  let rec2 := if threatLevel = .high
    then "Immediate action required. Consider blocking this IP address and investigating the source."
    else rec1
  { score := score
    threatLevel := threatLevel
    failedLoginScore := failedLoginScore
    repeatedAccessScore := repeatedAccessScore
    baseScore := additionalFactors
    isMalicious := isMalicious
    recommendation := rec2 }

/-! ### Composite scorer (`advanced-threat-detection.ts`) -/

/-- `DetectionReason`: one detection method finding. -/
structure DetectionReason where
  method : String
  confidence : ℚ
  description : String
  evidence : List String
deriving DecidableEq, Repr

/-- The fixed weight table of `calculateCompositeScore`. -/
def detectionWeightTable : List (String × ℚ) :=
  [("SQL Injection Signature Detection", 40),
   ("Web Shell Upload Detection", 35),
   ("Malware Indicators Detection", 38),
   ("SSH Brute Force Pattern Detection", 25),
   ("DDoS Attack Pattern Detection", 30),
   ("Critical Severity Escalation Detection", 35),
   ("Multi-Vector Attack Detection", 40),
   ("Distributed Attack Correlation Detection", 35),
   ("Rapid-Fire Event Detection", 20),
   ("Concentrated Attack Window Detection", 15),
   ("Request Rate Anomaly Detection", 18),
   ("Error Rate Anomaly Detection", 20),
   ("Failed Authentication Spike Detection", 25),
   ("Privilege Escalation Attempt Detection", 28)]

/-- `weights[reason.method] || 20`: table lookup with default 20. -/
def detectionWeight (method : String) : ℚ :=
  match detectionWeightTable.find? (fun p => p.1 == method) with
  | some p => p.2
  | none => 20

/-- `maxPossibleScore`: sum of all weights in the table (404). -/
def maxPossibleScore : ℚ := (detectionWeightTable.map Prod.snd).sum

/-- `calculateCompositeScore` (`advanced-threat-detection.ts` lines 454-484):
weighted-normalized 0-100 composite of all findings. -/
def calculateCompositeScore (reasons : List DetectionReason) : ℚ :=
  if reasons.length = 0 then 0
  else
    let weightedScore :=
      (reasons.map (fun r => r.confidence / 100 * detectionWeight r.method)).sum
    min ((jsRound (weightedScore / maxPossibleScore * 100) : ℤ) : ℚ) 100

/-- `scoreToThreatLevel` (`advanced-threat-detection.ts` lines 486-490):
severity mapping of the composite scorer. -/
def scoreToThreatLevel (score : ℚ) : ThreatLevel :=
  if 70 ≤ score then .high
  else if 40 ≤ score then .medium
  else .low

/-! ### Reputation data model (`ip-reputation-check.ts`) -/

/-- `IpReputationData` (`ip-reputation-check.ts` lines 17-29).  `lastReported`
and `lastUpdated` are epoch milliseconds. -/
structure IpReputationData where
  ipAddress : String
  abuseScore : ℚ
  reportCount : ℚ
  lastReported : ℤ
  isBlacklisted : Bool
  country : String
  isp : String
  reputationTrend : ReputationTrend
  threatCategories : List String
  riskLevel : RiskLevel
  lastUpdated : ℤ
deriving DecidableEq, Repr

/-- `IpReputationAnalysis` (`ip-reputation-check.ts` lines 31-37). -/
structure IpReputationAnalysis where
  ipAddress : String
  reputation : IpReputationData
  confidenceScore : ℚ
  recommendations : List String
  reputationBoost : ℚ
deriving DecidableEq, Repr

/-- `HIGH_RISK_COUNTRIES` (`ip-reputation-check.ts` line 63). -/
def HIGH_RISK_COUNTRIES : List String := ["KP", "IR", "SY"]

/-- `calculateReputationBoost` (`ip-reputation-check.ts` lines 295-323).
`now` is `Date.now()`. -/
def calculateReputationBoost (now : ℤ) (reputation : IpReputationData) : ℚ :=
  let boost0 : ℚ := reputation.abuseScore / 100 * 40
  let daysSinceReport : ℚ := ((now - reputation.lastReported : ℤ) : ℚ) / (1000 * 60 * 60 * 24)
  let boost1 := boost0 +
    (if daysSinceReport < 7 then 10
     else if daysSinceReport < 30 then 5
     else if daysSinceReport < 90 then 2
     else 0)
  let boost2 := boost1 + (if reputation.isBlacklisted then 20 else 0)
  let reportWeight := min (reputation.reportCount / 100) 1
  let boost3 := boost2 + reportWeight * 10
  let boost4 := boost3 + (if HIGH_RISK_COUNTRIES.contains reputation.country then 10 else 0)
  let boost5 := boost4 +
    (if reputation.reputationTrend = .declining then 8
     else if reputation.reputationTrend = .improving then -5
     else 0)
  max (-20) (min 50 boost5)

/-- `calculateReputationBoost` — the second, textually duplicated copy in the
integration module (`part_005` lines 334-362, with its local
`highRiskCountries` list). -/
def calculateReputationBoostApi (now : ℤ) (reputation : IpReputationData) : ℚ :=
  let boost0 : ℚ := reputation.abuseScore / 100 * 40
  let daysSinceReport : ℚ := ((now - reputation.lastReported : ℤ) : ℚ) / (1000 * 60 * 60 * 24)
  let boost1 := boost0 +
    (if daysSinceReport < 7 then 10
     else if daysSinceReport < 30 then 5
     else if daysSinceReport < 90 then 2
     else 0)
  let boost2 := boost1 + (if reputation.isBlacklisted then 20 else 0)
  let reportWeight := min (reputation.reportCount / 100) 1
  let boost3 := boost2 + reportWeight * 10
  let highRiskCountries : List String := ["KP", "IR", "SY"]
  let boost4 := boost3 + (if highRiskCountries.contains reputation.country then 10 else 0)
  let boost5 := boost4 +
    (if reputation.reputationTrend = .declining then 8
     else if reputation.reputationTrend = .improving then -5
     else 0)
  max (-20) (min 50 boost5)

/-- Modelled from the spec: the boost formula as §4.5 states it — one additive
sum of the six components, clamped to `[-20, 50]`. -/
def specReputationBoost (now : ℤ) (reputation : IpReputationData) : ℚ :=
  let daysSinceReport : ℚ := ((now - reputation.lastReported : ℤ) : ℚ) / (1000 * 60 * 60 * 24)
  let recency : ℚ :=
    if daysSinceReport < 7 then 10
    else if daysSinceReport < 30 then 5
    else if daysSinceReport < 90 then 2
    else 0
  let trend : ℚ :=
    if reputation.reputationTrend = .declining then 8
    else if reputation.reputationTrend = .improving then -5
    else 0
  let total := reputation.abuseScore / 100 * 40 + recency +
    (if reputation.isBlacklisted then 20 else 0) +
    min (reputation.reportCount / 100) 1 * 10 +
    (if HIGH_RISK_COUNTRIES.contains reputation.country then 10 else 0) + trend
  max (-20) (min 50 total)

/-! ### Fusion (`convertToThreatIntelligence`, `part_005` lines 424-436) -/

/-- The score-fusion step of `convertToThreatIntelligence`:
`adjustedThreatScore = Math.max(0, Math.min(100, analysis.threatScore + reputation.reputationBoost))`. -/
def adjustedThreatScore (threatScore reputationBoost : ℚ) : ℚ :=
  max 0 (min 100 (threatScore + reputationBoost))

/-- The level-update step of `convertToThreatIntelligence`: `threatLevel` is
initialised from the analysis and then overwritten in every branch. -/
def adjustedThreatLevel (analysisLevel : ThreatLevel) (adjusted : ℚ) : ThreatLevel :=
  let threatLevel := analysisLevel
  if 70 ≤ adjusted then .high
  else if 40 ≤ adjusted then .medium
  else .low

/-- Modelled from the spec: `clamp(x, lo, hi)`. -/
def specClamp (x lo hi : ℚ) : ℚ := max lo (min x hi)

/-! ### Character-level text helpers

Structural `List Char` versions of the string operations the embedded code
relies on (`String.prototype.includes`, `startsWith`, `split`, `Number`),
so that concrete inputs reduce in the kernel. -/

/-- Lowercase a character list (`String.prototype.toLowerCase`). -/
def lowerChars (s : List Char) : List Char := s.map Char.toLower

/-- Prefix test on character lists. -/
def isPrefixChars : List Char → List Char → Bool
  | [], _ => true
  | _ :: _, [] => false
  | a :: as, b :: bs => a == b && isPrefixChars as bs

/-- Substring occurrence test (`String.prototype.includes`). -/
def containsSub (hay : List Char) (needle : List Char) : Bool :=
  match hay with
  | [] => needle.isEmpty
  | _ :: t => isPrefixChars needle hay || containsSub t needle

/-- Split a character list on a separator character (`String.prototype.split`). -/
def splitOnChar (sep : Char) : List Char → List (List Char)
  | [] => [[]]
  | c :: cs =>
    match splitOnChar sep cs with
    | [] => [[]]
    | g :: gs => if c == sep then [] :: g :: gs else (c :: g) :: gs

/-- Parse a nonempty all-digit character list as a natural number. -/
def parseNatDigits : List Char → Option ℕ
  | [] => none
  | cs =>
    if cs.all (fun c => c.isDigit) then
      some (cs.foldl (fun acc c => acc * 10 + (c.toNat - 48)) 0)
    else none

/-- JS `Number(s)` restricted to the shapes that occur here: the empty string
is `0`, a digit string is its value, anything else is `NaN` (modelled as
`none`).  Signs, decimals and surrounding whitespace — which cannot occur in
the dotted-quad fragments this is applied to — are conservatively mapped to
`NaN`. -/
def jsNumber (s : List Char) : Option ℚ :=
  if s.isEmpty then some 0
  else (parseNatDigits s).map (fun n => (n : ℚ))

/-! ### Reputation client (`ip-reputation-api.ts`, `ip-reputation-check.ts`, `part_005`) -/

/-- One abuse report of an `AbuseIPDBResponse`. -/
structure AbuseReport where
  reportedAt : String
  comment : String
  reporterCountryCode : String
  abuseCategory : List ℕ
deriving DecidableEq, Repr

/-- The `data` object of an `AbuseIPDBResponse` (`ip-reputation-api.ts` lines
21-45).  `lastReportedAt` is the already-parsed timestamp in epoch
milliseconds (`none` models JSON `null`); the optional `reports` array is a
list, `[]` covering both the absent and the empty case exactly as the guard
`data.reports && data.reports.length > 0` does. -/
structure AbuseIPDBData where
  ipAddress : String
  abuseConfidenceScore : ℚ
  countryCode : String
  usageType : String
  isp : String
  domain : String
  hostnames : List String
  totalReports : ℚ
  numDistinctUsers : ℚ
  lastReportedAt : Option ℤ
  isWhitelisted : Bool
  reports : List AbuseReport
deriving DecidableEq, Repr

/-- One entry of the `errors` array of an `AbuseIPDBResponse`. -/
structure AbuseIPDBError where
  detail : String
  status : ℕ
deriving DecidableEq, Repr

/-- `AbuseIPDBResponse`: a decoded response body. -/
structure AbuseIPDBResponse where
  data : AbuseIPDBData
  errors : List AbuseIPDBError
deriving DecidableEq, Repr

/-- `categoryMap` of `mapAbuseCategoriestoThreatCategories`
(`ip-reputation-api.ts` lines 95-115). -/
def abuseCategoryMap (cat : ℕ) : Option String :=
  match cat with
  | 2 => some "ddos"
  | 3 => some "spam"
  | 4 => some "malware"
  | 5 => some "phishing"
  | 6 => some "botnets"
  | 7 => some "exploit"
  | 8 => some "brute_force"
  | 9 => some "bad_reputation"
  | 10 => some "open_proxy"
  | 11 => some "web_spam"
  | 12 => some "email_spam"
  | 13 => some "fraud"
  | 14 => some "scanner"
  | 15 => some "denial_abuse"
  | 16 => some "ftp_abuse"
  | 17 => some "privilege_escalation"
  | 18 => some "sql_injection"
  | 19 => some "ssh_abuse"
  | 20 => some "vulnerability"
  | _ => none

/-- `mapAbuseCategoriestoThreatCategories` (`ip-reputation-api.ts` lines
91-122).  The mapped strings are always non-empty, so `.filter(Boolean)`
keeps them all. -/
def mapAbuseCategoriestoThreatCategories (categories : List ℕ) (abuseScore : ℚ) :
    List String :=
  let mapped := categories.map (fun cat =>
    match abuseCategoryMap cat with
    | some s => s
    | none => "category_" ++ toString cat)
  if mapped.length = 0 ∧ 50 < abuseScore then ["suspicious"] else mapped

/-- `convertAbuseIPDBResponse` (`ip-reputation-api.ts` lines 127-178).  The
`Set` of category numbers iterates in insertion order, modelled by
`List.eraseDups` over the concatenated report categories. -/
def convertAbuseIPDBResponse (now : ℤ) (response : AbuseIPDBResponse) :
    IpReputationData :=
  let d := response.data
  let riskLevel : RiskLevel :=
    if 75 ≤ d.abuseConfidenceScore then .critical
    else if 50 ≤ d.abuseConfidenceScore then .high
    else if 25 ≤ d.abuseConfidenceScore then .medium
    else .low
  let reputationTrend : ReputationTrend :=
    if 100 < d.totalReports then .declining
    else if 50 < d.totalReports then .stable
    else if 0 < d.totalReports ∧ d.totalReports < 5 then .improving
    else .stable
  let threatCategories : List String :=
    if d.reports.length > 0 then
      mapAbuseCategoriestoThreatCategories
        ((d.reports.map (fun r => r.abuseCategory)).flatten.eraseDups)
        d.abuseConfidenceScore
    else []
  { ipAddress := d.ipAddress
    abuseScore := d.abuseConfidenceScore
    reportCount := d.totalReports
    lastReported := match d.lastReportedAt with
      | some t => t
      | none => 0
    isBlacklisted := decide (75 ≤ d.abuseConfidenceScore) || !d.isWhitelisted
    country := jsOrS (some d.countryCode) "Unknown"
    isp := jsOrS (some d.isp) (jsOrS (some d.domain) "Unknown ISP")
    reputationTrend := reputationTrend
    threatCategories := threatCategories
    riskLevel := riskLevel
    lastUpdated := now }

/-- `CACHE_TTL` of `IpReputationCache` (`ip-reputation-api.ts` line 53):
24 hours in milliseconds. -/
def CACHE_TTL : ℤ := 24 * 60 * 60 * 1000

/-- One entry of the reputation cache `Map`: value plus store time. -/
structure CacheEntry where
  ip : List Char
  data : IpReputationData
  timestamp : ℤ
deriving DecidableEq, Repr

/-- The cache `Map<string, {data, timestamp}>`, as an association list with at
most one live entry per key (`Map` keys are unique; `cacheSet` maintains
this). -/
abbrev ReputationCache := List CacheEntry

/-- `Map.prototype.get` on the underlying map. -/
def cacheFind (c : ReputationCache) (ip : List Char) : Option CacheEntry :=
  c.find? (fun e => e.ip == ip)

/-- `Map.prototype.delete`. -/
def cacheDelete (c : ReputationCache) (ip : List Char) : ReputationCache :=
  c.filter (fun e => !(e.ip == ip))

/-- `IpReputationCache.get` (`ip-reputation-api.ts` lines 59-70): returns the
entry unless it is older than `CACHE_TTL`, deleting it when expired.  Returns
the possibly-updated cache alongside the result. -/
def cacheGet (c : ReputationCache) (ip : List Char) (now : ℤ) :
    Option IpReputationData × ReputationCache :=
  match cacheFind c ip with
  | none => (none, c)
  | some cached =>
    if now - cached.timestamp > CACHE_TTL then (none, cacheDelete c ip)
    else (some cached.data, c)

/-- `IpReputationCache.set` (`ip-reputation-api.ts` lines 72-74):
last-writer-wins per key; modelled as remove-then-append (only `get` is
observable, so the `Map` insertion-order detail is irrelevant). -/
def cacheSet (c : ReputationCache) (ip : List Char) (d : IpReputationData)
    (now : ℤ) : ReputationCache :=
  cacheDelete c ip ++ [⟨ip, d, now⟩]

/-- Outcome of the `fetch` to the external service, from the point of view of
`checkIpReputationFromAPI`: a thrown network/JSON error (the `catch` branch),
a non-2xx status (`!response.ok`), or a decoded 2xx body. -/
inductive FetchOutcome
  | networkError
  | httpError (status : ℕ)
  | ok (response : AbuseIPDBResponse)
deriving DecidableEq, Repr

/-- Result of one instrumented `checkIpReputationFromAPI` run: the returned
value, the cache state afterwards, and how many external service calls were
issued (0 or 1). -/
structure LookupOutcome where
  result : Option IpReputationData
  cache : ReputationCache
  externalCalls : ℕ
deriving DecidableEq, Repr

/-- `checkIpReputationFromAPI` (`ip-reputation-api.ts` lines 187-244) with the
module-level cache passed explicitly and external calls counted: cache first;
without an API key no call is made; a failed call (thrown, non-2xx, or an
`errors` body) yields `null`; a successful call is converted and cached. -/
def checkIpReputationStep (c : ReputationCache) (apiKey : Option String)
    (fetch : FetchOutcome) (ip : List Char) (now : ℤ) : LookupOutcome :=
  match cacheGet c ip now with
  | (some cached, c1) => ⟨some cached, c1, 0⟩
  | (none, c1) =>
    match apiKey with
    | none => ⟨none, c1, 0⟩
    | some _ =>
      match fetch with
      | .networkError => ⟨none, c1, 1⟩
      | .httpError _ => ⟨none, c1, 1⟩
      | .ok response =>
        if response.errors.length > 0 then ⟨none, c1, 1⟩
        else
          let reputationData := convertAbuseIPDBResponse now response
          ⟨some reputationData, cacheSet c1 ip reputationData now, 1⟩

/-- `checkIpReputationFromAPI`, result only. -/
def checkIpReputationFromAPI (c : ReputationCache) (apiKey : Option String)
    (fetch : FetchOutcome) (ip : List Char) (now : ℤ) : Option IpReputationData :=
  (checkIpReputationStep c apiKey fetch ip now).result

/-! ### Local heuristic reputation generator (`ip-reputation-check.ts`) -/

/-- Result of `getGeoLocation`. -/
structure GeoInfo where
  country : String
  isp : String
  asn : String
deriving DecidableEq, Repr

/-- `getGeoLocation` (`ip-reputation-check.ts` lines 208-217). -/
def getGeoLocation (ipAddress : List Char) : GeoInfo :=
  if isPrefixChars "192.".data ipAddress then ⟨"US", "US ISP", "AS1234"⟩
  else if isPrefixChars "203.".data ipAddress then ⟨"CN", "China ISP", "AS9002"⟩
  else if isPrefixChars "198.".data ipAddress then ⟨"RU", "Russian ISP", "AS6128"⟩
  else if isPrefixChars "10.".data ipAddress then ⟨"US", "Private Network", "AS65000"⟩
  else ⟨"Unknown", "Unknown", "Unknown"⟩

/-- One entry of `KNOWN_MALICIOUS_RANGES` (`ip-reputation-check.ts` lines
50-57), with the literal CIDR string pre-split into its octets and mask. -/
structure MaliciousRange where
  octets : List ℚ
  maskBits : ℕ
  category : String
  riskLevel : RiskLevel
deriving DecidableEq, Repr

/-- `KNOWN_MALICIOUS_RANGES`: `192.168.1.0/24` internal_network low,
`10.0.0.0/8` private_network low, `172.16.0.0/12` private_network low,
`203.0.113.0/24` botnet_c2 critical, `198.51.100.0/24` malware_distribution
critical, `192.0.2.0/24` phishing high. -/
def KNOWN_MALICIOUS_RANGES : List MaliciousRange :=
  [⟨[192, 168, 1, 0], 24, "internal_network", .low⟩,
   ⟨[10, 0, 0, 0], 8, "private_network", .low⟩,
   ⟨[172, 16, 0, 0], 12, "private_network", .low⟩,
   ⟨[203, 0, 113, 0], 24, "botnet_c2", .critical⟩,
   ⟨[198, 51, 100, 0], 24, "malware_distribution", .critical⟩,
   ⟨[192, 0, 2, 0], 24, "phishing", .high⟩]

/-- `isInCidrRange` (`ip-reputation-check.ts` lines 223-234): simplified
prefix-byte comparison — the first `ceil(maskBits/8)` dot-separated fields of
the address must equal the range's; a missing or non-numeric (`NaN`) field
compares unequal. -/
def isInCidrRange (ip : List Char) (range : MaliciousRange) : Bool :=
  let ipParts := (splitOnChar '.' ip).map jsNumber
  let bytesToCheck := (range.maskBits + 7) / 8
  (List.range bytesToCheck).all (fun i =>
    match ipParts.get? i, range.octets.get? i with
    | some (some a), some b => a == b
    | _, _ => false)

/-- `getIpReputation` (`ip-reputation-check.ts` lines 239-286).  The mutable
`IP_REPUTATION_DB` is passed as a lookup `db`; the two `Math.random()` samples
of the generated branch are the oracle parameters `randReports`/`randAge`
(each in `[0,1)`).  The writes back into the database only memoise the
returned value and are not modelled. -/
def getIpReputation (db : List Char → Option IpReputationData) (ip : List Char)
    (randReports randAge : ℚ) (now : ℤ) : IpReputationData :=
  match db ip with
  | some d => d
  | none =>
    match KNOWN_MALICIOUS_RANGES.find? (fun range => isInCidrRange ip range) with
    | some range =>
      { ipAddress := String.mk ip
        abuseScore := if range.riskLevel = .critical then 85
          else if range.riskLevel = .high then 65 else 20
        reportCount := if range.riskLevel = .critical then 200 else 10
        lastReported := now
        isBlacklisted := range.riskLevel = .critical
        country := "Unknown"
        isp := "Unknown ISP"
        reputationTrend := .stable
        threatCategories := [range.category]
        riskLevel := range.riskLevel
        lastUpdated := now }
    | none =>
      let geo := getGeoLocation ip
      let baseScore : ℚ := if HIGH_RISK_COUNTRIES.contains geo.country then 30 else 5
      { ipAddress := String.mk ip
        abuseScore := baseScore
        reportCount := if 20 < baseScore then ((⌊randReports * 50⌋ : ℤ) : ℚ)
          else ((⌊randReports * 5⌋ : ℤ) : ℚ)
        lastReported := now - ⌊randAge * (30 * 24 * 60 * 60 * 1000 : ℚ)⌋
        isBlacklisted := decide (70 < baseScore)
        country := geo.country
        isp := geo.isp
        reputationTrend := if 50 < baseScore then .declining else .stable
        threatCategories := if 40 < baseScore then ["suspicious"] else []
        riskLevel := if 70 < baseScore then .critical
          else if 50 < baseScore then .high
          else if 25 < baseScore then .medium
          else .low
        lastUpdated := now }

/-- `analyzeIpReputation` (`ip-reputation-check.ts` lines 329-380): reputation
record, clamped boost, confidence, and the recommendation list built by the
chain of conditional pushes. -/
def analyzeIpReputation (db : List Char → Option IpReputationData)
    (ip : List Char) (randReports randAge : ℚ) (now : ℤ) : IpReputationAnalysis :=
  let reputation := getIpReputation db ip randReports randAge now
  let reputationBoost := calculateReputationBoost now reputation
  let confidence : ℚ := min (50 + min (reputation.reportCount * (1/2)) 30) 100
  let recommendations : List String :=
    (if reputation.isBlacklisted then
      ["🚨 CRITICAL: IP is blacklisted - Add to firewall blocklist immediately"]
     else []) ++
    (if reputation.riskLevel = .critical then
      ["Block source IP range on firewall or WAF",
       "Enable geo-blocking for " ++ reputation.country ++ " if not needed"]
     else if reputation.riskLevel = .high then
      ["Add IP to watchlist - Monitor for escalation",
       "Implement rate limiting for requests from this IP"]
     else if reputation.riskLevel = .medium then
      ["Monitor requests from this IP closely"]
     else []) ++
    (if reputation.threatCategories.contains "botnet" then
      ["Potential C2 (Command & Control) communication - Check outbound connections"]
     else []) ++
    (if reputation.threatCategories.contains "malware" then
      ["IP has distributed malware - Scan systems for infections"]
     else []) ++
    (if reputation.threatCategories.contains "ddos" then
      ["Enable DDoS protection - This IP participated in previous attacks"]
     else []) ++
    (if reputation.reputationTrend = .declining then
      ["⚠️ Reputation declining - Increase monitoring sensitivity"]
     else []) ++
    (if reputation.reportCount = 0 then
      ["✅ No abuse reports on record - Likely safe IP"]
     else [])
  { ipAddress := String.mk ip
    reputation := reputation
    confidenceScore := confidence
    recommendations := recommendations
    reputationBoost := reputationBoost }

/-- `generateRecommendations` (`part_005`, integration module): reputation
recommendations derived from live API data. -/
def generateRecommendationsApi (reputation : IpReputationData) : List String :=
  let recommendations : List String :=
    (if 75 ≤ reputation.abuseScore then
      ["🚨 CRITICAL: IP has CRITICAL abuse score (" ++ toString reputation.abuseScore
        ++ "/100) - Block immediately"]
     else if 50 ≤ reputation.abuseScore then
      ["🔴 HIGH RISK: IP has HIGH abuse score (" ++ toString reputation.abuseScore
        ++ "/100) - Add to watchlist"]
     else []) ++
    (if reputation.isBlacklisted then
      ["⛔ IP is blacklisted - Add to firewall blocklist"]
     else []) ++
    (if 100 < reputation.reportCount then
      ["📊 This IP has " ++ toString reputation.reportCount
        ++ " abuse reports - Likely coordinated attacker"]
     else if 10 < reputation.reportCount then
      ["📋 This IP has " ++ toString reputation.reportCount
        ++ " reports - Enable rate limiting"]
     else []) ++
    (if reputation.threatCategories.contains "botnet"
        || reputation.threatCategories.contains "botnets" then
      ["🤖 Botnet activity detected - Check for C2 communication"]
     else []) ++
    (if reputation.threatCategories.contains "malware" then
      ["🦠 Known malware distribution source - Scan systems"]
     else []) ++
    (if reputation.threatCategories.contains "ddos" then
      ["⚡ DDoS participant - Enable DDoS protection"]
     else []) ++
    (if reputation.threatCategories.contains "phishing" then
      ["🎣 Phishing infrastructure - Block for safety"]
     else []) ++
    (if reputation.reputationTrend = .declining then
      ["📉 Reputation declining - Increase monitoring"]
     else []) ++
    (if reputation.reportCount = 0 ∧ reputation.abuseScore < 10 then
      ["✅ No abuse history - IP appears safe"]
     else [])
  if recommendations.length > 0 then recommendations
  else ["Monitor for future activity"]

/-- `getIpReputationWithFallback` (`part_005` lines 265-283): try the external
API; when it yields nothing (no cache hit and missing key, non-2xx status,
network error, or an error body), fall back to the local heuristic
`analyzeIpReputation`.  The Lean function is total: every failure mode of the
source is a value of `FetchOutcome`, so nothing can escape as an exception. -/
def getIpReputationWithFallback (c : ReputationCache) (apiKey : Option String)
    (fetch : FetchOutcome) (db : List Char → Option IpReputationData)
    (ip : List Char) (randReports randAge : ℚ) (now : ℤ) : IpReputationAnalysis :=
  match checkIpReputationFromAPI c apiKey fetch ip now with
  | some apiData =>
    { ipAddress := String.mk ip
      reputation := apiData
      confidenceScore := min 100 (apiData.reportCount / 10 + 50)
      recommendations := generateRecommendationsApi apiData
      reputationBoost := calculateReputationBoostApi now apiData }
  | none => analyzeIpReputation db ip randReports randAge now

/-! ### Log parser (`log-parser.ts`) -/

/-- `determineSeverity` (`log-parser.ts` lines 445-459), including the
redundant overlap between `AUTH_FAILED_PATTERN` (the alternation
`failed|invalid|error|denied|rejected`, tested on the lowercased message) and
the three literal `includes` checks that follow it.  Messages are character
lists; the return value is the severity string. -/
def authFailedPatternTest (m : List Char) : Bool :=
  containsSub m "failed".data || containsSub m "invalid".data ||
  containsSub m "error".data || containsSub m "denied".data ||
  containsSub m "rejected".data

def determineSeverity (message : List Char) : String :=
  let lowerMessage := lowerChars message
  if containsSub lowerMessage "critical".data || containsSub lowerMessage "emergency".data
      || containsSub lowerMessage "panic".data || containsSub lowerMessage "fatal".data then
    "critical"
  else if authFailedPatternTest lowerMessage || containsSub lowerMessage "error".data
      || containsSub lowerMessage "failed".data || containsSub lowerMessage "denied".data then
    "error"
  else if containsSub lowerMessage "warning".data || containsSub lowerMessage "warn".data
      || containsSub lowerMessage "blocked".data || containsSub lowerMessage "suspicious".data then
    "warning"
  else "info"

/-- The closed severity vocabulary of the `NormalizedEvent` data model. -/
def closedSeverities : List String := ["info", "warning", "error", "critical"]

/-- Modelled from the spec: §4.1's severity-from-keyword policy as the claim
states it, for comparison with `determineSeverity` — `critical`-tier keywords
critical/emergency/panic/fatal, `error`-tier a `fail`-prefixed word, `error`
or `denied`, `warning`-tier warning/warn/blocked/suspicious, else `info`. -/
def specKeywordSeverity (message : List Char) : String :=
  let lowerMessage := lowerChars message
  if containsSub lowerMessage "critical".data || containsSub lowerMessage "emergency".data
      || containsSub lowerMessage "panic".data || containsSub lowerMessage "fatal".data then
    "critical"
  else if containsSub lowerMessage "fail".data || containsSub lowerMessage "error".data
      || containsSub lowerMessage "denied".data then
    "error"
  else if containsSub lowerMessage "warning".data || containsSub lowerMessage "warn".data
      || containsSub lowerMessage "blocked".data || containsSub lowerMessage "suspicious".data then
    "warning"
  else "info"

/-- The keyword tiers that `determineSeverity` actually implements (the
`error` tier is the full `AUTH_FAILED_PATTERN` alternation). -/
def severityCriticalKeywords : List String := ["critical", "emergency", "panic", "fatal"]

def severityErrorKeywords : List String := ["failed", "invalid", "error", "denied", "rejected"]

def severityWarningKeywords : List String := ["warning", "warn", "blocked", "suspicious"]

/-- Does the lowercased message contain one of the keywords? -/
def containsAnyKeyword (m : List Char) (kws : List String) : Bool :=
  kws.any (fun k => containsSub (lowerChars m) k.data)

/-- The decoded JSON object as `parseJSONLog` probes it: the aliased fields,
each `none` when absent (other JSON value types do not occur in the samples
and are out of the embedding's scope), plus `stringified`, the
`JSON.stringify(json)` serialization used for the message fallback and the IP
regex scan. -/
structure JsonLogObj where
  timestamp : Option String
  time : Option String
  ts : Option String
  source_ip : Option String
  sourceIp : Option String
  src : Option String
  message : Option String
  msg : Option String
  content : Option String
  type : Option String
  level : Option String
  severity : Option String
  stringified : List Char
deriving DecidableEq, Repr

/-- A parsed line as the parser returns it (`ParsedLine` interface).  The
`timestamp` (a `Date`) is outside the embedding; `severity` is an open string
exactly as it is at runtime in the source. -/
structure ParsedLine where
  sourceIp : String
  logType : String
  message : String
  severity : String
  rawLog : List Char
deriving DecidableEq, Repr

/-- `parseJSONLog` (`log-parser.ts` lines 118-137), on the already-decoded
object.  `extractedIp` is the result of the `IP_PATTERN` regex scan over the
serialized object (an oracle input; the regex itself is not embedded).  Note
`severity: json.severity || json.level || determineSeverity(message)` — the
caller-supplied string is used verbatim. -/
def parseJSONLog (j : JsonLogObj) (extractedIp : Option String) : ParsedLine :=
  let sourceIp := jsOrS j.source_ip (jsOrS j.sourceIp (jsOrS j.src
    (jsOrS extractedIp "0.0.0.0")))
  let message := jsOrS j.message (jsOrS j.msg (jsOrS j.content
    (String.mk (j.stringified.take 200))))
  let logType := jsOrS j.type (jsOrS j.level "system")
  { sourceIp := sourceIp
    logType := if logType = "auth" ∨ logType = "authentication" then "auth" else "system"
    message := message
    severity := jsOrS j.severity (jsOrS j.level (determineSeverity message.data))
    rawLog := j.stringified }

/-- `JSON_LOG_PATTERN` = `^{.*}$` (`log-parser.ts` line 31): the trimmed line
is brace-delimited.  (123 and 125 are the opening and closing brace.) -/
def jsonLogShape (l : List Char) : Bool :=
  (match l.head? with
   | some c => c.toNat == 123
   | none => false) &&
  (match l.getLast? with
   | some c => c.toNat == 125
   | none => false)

/-- JS `String.prototype.trim` on a character list. -/
def trimChars (s : List Char) : List Char :=
  ((s.dropWhile Char.isWhitespace).reverse.dropWhile Char.isWhitespace).reverse

/-- `parseLogs` (`log-parser.ts` lines 489-518), parameterized by the
per-line parser (`parseSingleLine` in the source; any `List Char → Option α`
here — the aggregation logic is the same for every line parser, and the pure
model cannot throw, so the `catch` arm that would record an exception message
never fires).  `parseLogsAux lines i` walks the lines carrying the 0-based
index `i`, returning (entries, errors, parsedLines). -/
def parseLogsAux (lineParse : List Char → Option α) :
    List (List Char) → ℕ → List α × List String × ℕ
  | [], _ => ([], [], 0)
  | line :: rest, i =>
    if (trimChars line).isEmpty then parseLogsAux lineParse rest (i + 1)
    else
      match lineParse line with
      | some parsed =>
        let (entries, errors, parsedLines) := parseLogsAux lineParse rest (i + 1)
        (parsed :: entries, errors, parsedLines + 1)
      | none =>
        let (entries, errors, parsedLines) := parseLogsAux lineParse rest (i + 1)
        (entries, ("Line " ++ toString (i + 1) ++ ": Could not parse log format") :: errors,
         parsedLines)

/-- `ParsedLogResult` (`types.ts`): the batch parse result. -/
structure ParsedLogResult (α : Type) where
  success : Bool
  entries : List α
  errors : List String
  totalLines : ℕ
  parsedLines : ℕ
deriving DecidableEq, Repr

/-- `parseLogs`: split the submitted text on newlines, skip blank lines,
parse each remaining line, cap the error list at 10, count non-blank lines.
`success` is `entries.length > 0`. -/
def parseLogs (lineParse : List Char → Option α) (content : List Char) :
    ParsedLogResult α :=
  let lines := splitOnChar '\n' content
  let (entries, errors, parsedLines) := parseLogsAux lineParse lines 0
  { success := decide (0 < entries.length)
    entries := entries
    errors := errors.take 10
    totalLines := (lines.filter (fun l => !(trimChars l).isEmpty)).length
    parsedLines := parsedLines }

/-! ### Helper lemmas -/

/-- `Math.round` is monotone. -/
theorem jsRound_mono {a b : ℚ} (h : a ≤ b) : jsRound a ≤ jsRound b :=
  Int.floor_le_floor (by linarith)

/-- `Math.round` of a nonnegative number is nonnegative. -/
theorem jsRound_nonneg {a : ℚ} (h : 0 ≤ a) : 0 ≤ jsRound a := by
  unfold jsRound
  exact Int.le_floor.mpr (by push_cast; linarith)

/-- The clamp `Math.max(-20, Math.min(50, x))` lands in `[-20, 50]`. -/
theorem boostClamp_mem (x : ℚ) :
    -20 ≤ max (-20) (min 50 x) ∧ max (-20) (min 50 x) ≤ 50 :=
  ⟨le_max_left _ _, max_le (by norm_num) (min_le_left _ _)⟩

/-! ### C1 — threat-level thresholds of the two scorers -/

/-- Claim C1, counterexample: at score 60 the direct scorer already reports
`high`, although 60 < 70 — the two scorers do not share the
`≥70 high / ≥40 medium` thresholds. -/
theorem c1_counterexample :
    scoreToSeverity 60 = ThreatLevel.high ∧ ¬(70 ≤ (60 : ℚ)) := by
  constructor
  · unfold scoreToSeverity
    norm_num
  · norm_num

/-- Claim C1 (amended): the composite scorer's level function uses the
thresholds `≥70 → high`, `≥40 → medium`, else `low`; the direct scorer's
level function uses `≥60 → high`, `≥30 → medium`, else `low`. -/
theorem c1_scorer_thresholds (s : ℚ) :
    ((scoreToThreatLevel s = .high ↔ 70 ≤ s) ∧
     (scoreToThreatLevel s = .medium ↔ 40 ≤ s ∧ s < 70) ∧
     (scoreToThreatLevel s = .low ↔ s < 40)) ∧
    ((scoreToSeverity s = .high ↔ 60 ≤ s) ∧
     (scoreToSeverity s = .medium ↔ 30 ≤ s ∧ s < 60) ∧
     (scoreToSeverity s = .low ↔ s < 30)) := by
  unfold scoreToThreatLevel scoreToSeverity
  split_ifs <;> simp_all <;> first | linarith | (constructor <;> linarith)

/-! ### C2 — reputation fusion clamps and recomputes the level -/

/-- Claim C2: in `convertToThreatIntelligence` the fused score is exactly
`clamp(compositeScore + reputationBoost, 0, 100)`, hence in `[0, 100]`, and
the threat level is recomputed from the fused score with the `≥70 / ≥40`
thresholds (the same mapping as `scoreToThreatLevel`). -/
theorem c2_fusion_clamps_and_recomputes (threatScore reputationBoost : ℚ)
    (analysisLevel : ThreatLevel) :
    adjustedThreatScore threatScore reputationBoost =
      specClamp (threatScore + reputationBoost) 0 100 ∧
    0 ≤ adjustedThreatScore threatScore reputationBoost ∧
    adjustedThreatScore threatScore reputationBoost ≤ 100 ∧
    adjustedThreatLevel analysisLevel (adjustedThreatScore threatScore reputationBoost) =
      scoreToThreatLevel (adjustedThreatScore threatScore reputationBoost) ∧
    (adjustedThreatLevel analysisLevel (adjustedThreatScore threatScore reputationBoost)
        = .high ↔ 70 ≤ adjustedThreatScore threatScore reputationBoost) ∧
    (adjustedThreatLevel analysisLevel (adjustedThreatScore threatScore reputationBoost)
        = .medium ↔ 40 ≤ adjustedThreatScore threatScore reputationBoost ∧
          adjustedThreatScore threatScore reputationBoost < 70) ∧
    (adjustedThreatLevel analysisLevel (adjustedThreatScore threatScore reputationBoost)
        = .low ↔ adjustedThreatScore threatScore reputationBoost < 40) := by
  refine ⟨?_, ?_, ?_, rfl, ?_, ?_, ?_⟩
  · unfold adjustedThreatScore specClamp
    rw [min_comm]
  · exact le_max_left _ _
  · exact max_le (by norm_num) (min_le_left _ _)
  all_goals
    unfold adjustedThreatLevel
    split_ifs <;> simp_all <;> linarith

/-! ### C3 — the direct scorer clamps only from above -/

/-- Claim C3, counterexample: with inputs `(0, 0, -5)` the direct scorer
returns score `-5`, outside `[0, 100]` — there is no lower output clamp. -/
theorem c3_counterexample :
    (calculateThreatScore 0 0 (-5)).score = -5 ∧
    ¬(0 ≤ (calculateThreatScore 0 0 (-5)).score) := by
  have h : (calculateThreatScore 0 0 (-5)).score = -5 := by
    unfold calculateThreatScore jsRound
    norm_num
  exact ⟨h, by rw [h]; norm_num⟩

/-- Claim C3 (amended): for every input triple the direct scorer returns
`min(bucket(failedLogins) + min(round(repeatedAccess*0.5), 30) + additionalFactors, 100)`
— clamped only from above at the output stage, so the score never exceeds 100
but can be negative; for nonnegative `repeatedAccess` and
`additionalFactors` it does lie in `[0, 100]`. -/
theorem c3_direct_scorer_range (failedLogins repeatedAccess additionalFactors : ℚ) :
    (calculateThreatScore failedLogins repeatedAccess additionalFactors).score =
      min ((if 5 ≤ failedLogins then 70 else if 3 ≤ failedLogins then 30
            else if 1 ≤ failedLogins then 10 else 0) +
           min ((jsRound (repeatedAccess * (1/2)) : ℤ) : ℚ) 30 + additionalFactors) 100 ∧
    (calculateThreatScore failedLogins repeatedAccess additionalFactors).score ≤ 100 ∧
    (0 ≤ repeatedAccess → 0 ≤ additionalFactors →
      0 ≤ (calculateThreatScore failedLogins repeatedAccess additionalFactors).score ∧
      (calculateThreatScore failedLogins repeatedAccess additionalFactors).score ≤ 100) := by
  unfold calculateThreatScore
  refine ⟨by norm_num [SCORE_FAILED_5_PLUS, SCORE_FAILED_3_4, SCORE_FAILED_1_2], ?_, ?_⟩
  · exact min_le_right _ _
  · intro hr ha
    refine ⟨?_, min_le_right _ _⟩
    have hbucket : (0:ℚ) ≤
        (if 5 ≤ failedLogins then SCORE_FAILED_5_PLUS
         else if 3 ≤ failedLogins then SCORE_FAILED_3_4
         else if 1 ≤ failedLogins then SCORE_FAILED_1_2 else 0) := by
      split_ifs <;> norm_num [SCORE_FAILED_5_PLUS, SCORE_FAILED_3_4, SCORE_FAILED_1_2]
    have hrep : (0:ℚ) ≤ min ((jsRound (repeatedAccess * (1/2)) : ℤ) : ℚ) 30 := by
      have h0 : (0:ℤ) ≤ jsRound (repeatedAccess * (1/2)) := jsRound_nonneg (by linarith)
      refine le_min ?_ (by norm_num)
      exact_mod_cast h0
    simp only []
    refine le_min ?_ (by norm_num)
    linarith

/-- Claim C3 witness: at inputs `(2, 10, 5)` the hypotheses hold and the
score lies in `[0, 100]`. -/
theorem c3_direct_scorer_range_witness :
    0 ≤ (10 : ℚ) ∧ 0 ≤ (5 : ℚ) ∧
    (0 ≤ (calculateThreatScore 2 10 5).score ∧ (calculateThreatScore 2 10 5).score ≤ 100) :=
  ⟨by norm_num, by norm_num,
    (c3_direct_scorer_range 2 10 5).2.2 (by norm_num) (by norm_num)⟩

/-! ### C4 — monotonicity of the composite scorer -/

/-- Every weight the table can yield is at least 15 (the table minimum;
unknown methods default to 20). -/
theorem detectionWeight_ge (method : String) : 15 ≤ detectionWeight method := by
  unfold detectionWeight
  cases h : detectionWeightTable.find? (fun p => p.1 == method) with
  | none => norm_num
  | some p =>
    have hmem : p ∈ detectionWeightTable := List.mem_of_find?_eq_some h
    fin_cases hmem <;> norm_num

/-- The weight-table total is positive. -/
theorem maxPossibleScore_pos : (0:ℚ) < maxPossibleScore := by
  norm_num [maxPossibleScore, detectionWeightTable]

/-- Claim C4: appending a finding with positive confidence never decreases
the composite score. -/
theorem c4_composite_monotone (reasons : List DetectionReason)
    (f : DetectionReason) (hconf : 0 < f.confidence) :
    calculateCompositeScore reasons ≤ calculateCompositeScore (reasons ++ [f]) := by
  have hwpos : 0 < f.confidence / 100 * detectionWeight f.method := by
    have hw := detectionWeight_ge f.method
    exact mul_pos (by positivity) (by linarith)
  unfold calculateCompositeScore
  cases reasons with
  | nil =>
    have hm := maxPossibleScore_pos
    simp only [List.length_nil, List.nil_append, List.length_cons, List.map_cons,
      List.map_nil, List.sum_cons, List.sum_nil, if_pos rfl, add_zero,
      Nat.succ_ne_zero, if_neg (Nat.succ_ne_zero 0)]
    refine le_min ?_ (by norm_num)
    have h0 : (0:ℤ) ≤ jsRound (f.confidence / 100 * detectionWeight f.method /
        maxPossibleScore * 100) := by
      refine jsRound_nonneg ?_
      have hnum : 0 ≤ f.confidence / 100 * detectionWeight f.method := le_of_lt hwpos
      have hdiv : 0 ≤ f.confidence / 100 * detectionWeight f.method / maxPossibleScore :=
        div_nonneg hnum (le_of_lt hm)
      linarith
    exact_mod_cast h0
  | cons a as =>
    have hlen1 : ((a :: as : List DetectionReason)).length ≠ 0 := by simp
    have hlen2 : ((a :: as) ++ [f] : List DetectionReason).length ≠ 0 := by simp
    simp only [if_neg hlen1, if_neg hlen2]
    have hsum : ((a :: as).map (fun r => r.confidence / 100 * detectionWeight r.method)).sum ≤
        (((a :: as) ++ [f]).map (fun r => r.confidence / 100 * detectionWeight r.method)).sum := by
      rw [List.map_append, List.sum_append]
      simp only [List.map_cons, List.map_nil, List.sum_cons, List.sum_nil]
      linarith
    refine min_le_min ?_ le_rfl
    have hdiv : ((a :: as).map (fun r => r.confidence / 100 * detectionWeight r.method)).sum /
        maxPossibleScore * 100 ≤
        (((a :: as) ++ [f]).map (fun r => r.confidence / 100 * detectionWeight r.method)).sum /
        maxPossibleScore * 100 := by
      have := maxPossibleScore_pos
      gcongr
    exact_mod_cast jsRound_mono hdiv

/-- Claim C4 witness: appending a confidence-50 finding to the empty list
does not decrease the composite score. -/
theorem c4_composite_monotone_witness :
    0 < (⟨"Rapid-Fire Event Detection", 50, "sample", []⟩ : DetectionReason).confidence ∧
    calculateCompositeScore [] ≤
      calculateCompositeScore ([] ++ [⟨"Rapid-Fire Event Detection", 50, "sample", []⟩]) :=
  ⟨by norm_num, c4_composite_monotone [] _ (by norm_num)⟩

/-! ### C5 — the reputation boost formula -/

/-- Claim C5: both copies of `calculateReputationBoost` (the heuristic module
and the API integration module) compute exactly the spec's additive sum —
abuse contribution `abuseScore/100*40`, the `<7d/+10`, `<30d/+5`, `<90d/+2`
recency bonus, `+20` if listed, volume `min(reportCount/100,1)*10`, `+10` for
the fixed high-risk country set, `+8`/`-5` for a declining/improving trend —
clamped to `[-20, 50]`; in particular the boost always lies in `[-20, 50]`. -/
theorem c5_reputation_boost_formula (now : ℤ) (reputation : IpReputationData) :
    calculateReputationBoost now reputation = specReputationBoost now reputation ∧
    calculateReputationBoostApi now reputation = specReputationBoost now reputation ∧
    -20 ≤ calculateReputationBoost now reputation ∧
    calculateReputationBoost now reputation ≤ 50 := by
  refine ⟨rfl, rfl, ?_, ?_⟩
  · exact (boostClamp_mem _).1
  · exact (boostClamp_mem _).2

/-! ### C6 — reputation lookup is total under external failure -/

/-- The external reputation call yields nothing: no fresh cache hit, and the
call itself fails (missing API key, thrown network/JSON error, non-2xx
status such as 401/429, or a 2xx body carrying an `errors` array). -/
def externalCallFails (c : ReputationCache) (apiKey : Option String)
    (fetch : FetchOutcome) (ip : List Char) (now : ℤ) : Prop :=
  (cacheGet c ip now).1 = none ∧
  (apiKey = none ∨
    match fetch with
    | .ok response => response.errors ≠ []
    | _ => True)

/-- Claim C6: whenever the external reputation call fails, the lookup still
returns a record — exactly the one produced by the local heuristic fallback
`analyzeIpReputation` — and its boost lies in `[-20, 50]`.  (The model is a
total function, mirroring that every failure mode in the source is caught
and converted to `null` rather than escaping as an exception.) -/
theorem c6_fallback_total (c : ReputationCache) (apiKey : Option String)
    (fetch : FetchOutcome) (db : List Char → Option IpReputationData)
    (ip : List Char) (randReports randAge : ℚ) (now : ℤ)
    (hfail : externalCallFails c apiKey fetch ip now) :
    checkIpReputationFromAPI c apiKey fetch ip now = none ∧
    getIpReputationWithFallback c apiKey fetch db ip randReports randAge now =
      analyzeIpReputation db ip randReports randAge now ∧
    -20 ≤ (getIpReputationWithFallback c apiKey fetch db ip randReports randAge now).reputationBoost ∧
    (getIpReputationWithFallback c apiKey fetch db ip randReports randAge now).reputationBoost ≤ 50 := by
  obtain ⟨hcache, hrest⟩ := hfail
  rcases hg : cacheGet c ip now with ⟨res, c1⟩
  rw [hg] at hcache
  simp only at hcache
  subst hcache
  have hapi : checkIpReputationFromAPI c apiKey fetch ip now = none := by
    unfold checkIpReputationFromAPI checkIpReputationStep
    rw [hg]
    cases apiKey with
    | none => simp
    | some k =>
      rcases hrest with hk | hf
      · exact absurd hk (by simp)
      · cases fetch with
        | networkError => simp
        | httpError status => simp
        | ok response =>
          simp only at hf
          have hlen : response.errors.length > 0 := List.length_pos.mpr hf
          simp [hlen]
  have hfall : getIpReputationWithFallback c apiKey fetch db ip randReports randAge now =
      analyzeIpReputation db ip randReports randAge now := by
    unfold getIpReputationWithFallback
    rw [hapi]
  have hboost : (analyzeIpReputation db ip randReports randAge now).reputationBoost =
      calculateReputationBoost now (getIpReputation db ip randReports randAge now) := rfl
  refine ⟨hapi, hfall, ?_, ?_⟩
  · rw [hfall, hboost]
    unfold calculateReputationBoost
    exact (boostClamp_mem _).1
  · rw [hfall, hboost]
    unfold calculateReputationBoost
    exact (boostClamp_mem _).2

/-- Claim C6 witness: with an empty cache and an HTTP 429 response the lookup
falls back to the local heuristic and its boost lies in `[-20, 50]`. -/
theorem c6_fallback_total_witness :
    externalCallFails [] (some "key") (.httpError 429) "203.0.113.77".data 0 ∧
    (checkIpReputationFromAPI [] (some "key") (.httpError 429) "203.0.113.77".data 0 = none ∧
     getIpReputationWithFallback [] (some "key") (.httpError 429) (fun _ => none)
       "203.0.113.77".data 0 0 0 =
       analyzeIpReputation (fun _ => none) "203.0.113.77".data 0 0 0 ∧
     -20 ≤ (getIpReputationWithFallback [] (some "key") (.httpError 429) (fun _ => none)
       "203.0.113.77".data 0 0 0).reputationBoost ∧
     (getIpReputationWithFallback [] (some "key") (.httpError 429) (fun _ => none)
       "203.0.113.77".data 0 0 0).reputationBoost ≤ 50) := by
  have h : externalCallFails [] (some "key") (.httpError 429) "203.0.113.77".data 0 :=
    ⟨rfl, Or.inr trivial⟩
  exact ⟨h, c6_fallback_total [] (some "key") (.httpError 429) (fun _ => none)
    "203.0.113.77".data 0 0 0 h⟩

/-! ### C7 — cache TTL and single external call -/

/-- After a `delete`, no entry for the key remains. -/
theorem cacheFind_cacheDelete (c : ReputationCache) (ip : List Char) :
    cacheFind (cacheDelete c ip) ip = none := by
  unfold cacheFind cacheDelete
  induction c with
  | nil => rfl
  | cons e t ih =>
    by_cases h : e.ip == ip
    · simp [h, ih]
    · simp [h, ih]

/-- After a `set`, the key maps to the freshly stored entry. -/
theorem cacheFind_cacheSet (c : ReputationCache) (ip : List Char)
    (d : IpReputationData) (ts : ℤ) :
    cacheFind (cacheSet c ip d ts) ip = some ⟨ip, d, ts⟩ := by
  unfold cacheSet cacheFind cacheDelete
  induction c with
  | nil => simp
  | cons e t ih =>
    by_cases h : e.ip == ip
    · simp [h, ih]
    · simp [h, ih]

/-- A sample reputation record for the cache scenarios. -/
def c7SampleRecord : IpReputationData :=
  { ipAddress := "198.51.100.9"
    abuseScore := 20
    reportCount := 3
    lastReported := 0
    isBlacklisted := false
    country := "US"
    isp := "Sample ISP"
    reputationTrend := .stable
    threatCategories := []
    riskLevel := .low
    lastUpdated := 0 }

/-- Claim C7, counterexample: a record stored exactly 24 hours (86400000 ms)
before the `get` is still returned — the entry survives until elapsed time
strictly exceeds the TTL, so "stored less than 24 hours before" is not an
`iff`-characterization of a hit. -/
theorem c7_counterexample :
    (cacheGet [⟨"198.51.100.9".data, c7SampleRecord, 0⟩] "198.51.100.9".data
      86400000).1 = some c7SampleRecord ∧
    ¬((86400000 : ℤ) - 0 < 24 * 60 * 60 * 1000) := by
  constructor
  · rfl
  · norm_num

/-- Claim C7 (amended): a cache `get` returns the stored record iff the
elapsed time since the store is at most `CACHE_TTL` (24 h); an older entry is
removed and `null` is returned.  Consequently, after a lookup that obtains
and caches a record from the external service, a second lookup of the same
address within the TTL window returns the same record and issues no further
external call. -/
theorem c7_cache_ttl_single_call :
    (∀ (c : ReputationCache) (ip : List Char) (now : ℤ) (e : CacheEntry),
      cacheFind c ip = some e →
      (now - e.timestamp ≤ CACHE_TTL → (cacheGet c ip now).1 = some e.data) ∧
      (CACHE_TTL < now - e.timestamp →
        (cacheGet c ip now).1 = none ∧ cacheFind (cacheGet c ip now).2 ip = none)) ∧
    (∀ (c : ReputationCache) (key : String) (key2 : Option String)
      (fetch2 : FetchOutcome) (response : AbuseIPDBResponse) (ip : List Char) (t0 t1 : ℤ),
      cacheFind c ip = none → response.errors = [] → t1 - t0 ≤ CACHE_TTL →
      (checkIpReputationStep c (some key) (.ok response) ip t0).externalCalls = 1 ∧
      (checkIpReputationStep c (some key) (.ok response) ip t0).result =
        some (convertAbuseIPDBResponse t0 response) ∧
      (checkIpReputationStep (checkIpReputationStep c (some key) (.ok response) ip t0).cache
        key2 fetch2 ip t1).externalCalls = 0 ∧
      (checkIpReputationStep (checkIpReputationStep c (some key) (.ok response) ip t0).cache
        key2 fetch2 ip t1).result = some (convertAbuseIPDBResponse t0 response)) := by
  constructor
  · intro c ip now e hfind
    constructor
    · intro hle
      unfold cacheGet
      rw [hfind]
      dsimp only
      rw [if_neg (not_lt.mpr hle)]
    · intro hgt
      unfold cacheGet
      rw [hfind]
      dsimp only
      rw [if_pos hgt]
      exact ⟨rfl, cacheFind_cacheDelete c ip⟩
  · intro c key key2 fetch2 response ip t0 t1 hfind herr httl
    have hget0 : cacheGet c ip t0 = (none, c) := by
      unfold cacheGet
      rw [hfind]
    have ho1 : checkIpReputationStep c (some key) (.ok response) ip t0 =
        ⟨some (convertAbuseIPDBResponse t0 response),
         cacheSet c ip (convertAbuseIPDBResponse t0 response) t0, 1⟩ := by
      unfold checkIpReputationStep
      rw [hget0]
      simp [herr]
    have hget1 : cacheGet (cacheSet c ip (convertAbuseIPDBResponse t0 response) t0) ip t1 =
        (some (convertAbuseIPDBResponse t0 response),
         cacheSet c ip (convertAbuseIPDBResponse t0 response) t0) := by
      unfold cacheGet
      rw [cacheFind_cacheSet]
      dsimp only
      rw [if_neg (not_lt.mpr httl)]
    have ho2 : checkIpReputationStep
        (cacheSet c ip (convertAbuseIPDBResponse t0 response) t0) key2 fetch2 ip t1 =
        ⟨some (convertAbuseIPDBResponse t0 response),
         cacheSet c ip (convertAbuseIPDBResponse t0 response) t0, 0⟩ := by
      unfold checkIpReputationStep
      rw [hget1]
    rw [ho1]
    exact ⟨rfl, rfl, by rw [ho2], by rw [ho2]⟩

/-- A sample successful external response for the cache scenario. -/
def c7SampleResponse : AbuseIPDBResponse :=
  { data :=
    { ipAddress := "198.51.100.9"
      abuseConfidenceScore := 10
      countryCode := "US"
      usageType := ""
      isp := "Sample ISP"
      domain := ""
      hostnames := []
      totalReports := 2
      numDistinctUsers := 1
      lastReportedAt := some 0
      isWhitelisted := true
      reports := [] }
    errors := [] }

/-- Claim C7 witness: a fresh entry stored at time 5 is returned at time 10;
and after a successful external lookup at time 0, a second lookup at time
1000 issues no external call. -/
theorem c7_cache_ttl_single_call_witness :
    (cacheFind [⟨"198.51.100.9".data, c7SampleRecord, 5⟩] "198.51.100.9".data =
      some ⟨"198.51.100.9".data, c7SampleRecord, 5⟩ ∧
     (10 : ℤ) - 5 ≤ CACHE_TTL ∧
     (cacheGet [⟨"198.51.100.9".data, c7SampleRecord, 5⟩] "198.51.100.9".data 10).1 =
      some c7SampleRecord) ∧
    (cacheFind ([] : ReputationCache) "198.51.100.9".data = none ∧
     c7SampleResponse.errors = [] ∧ (1000 : ℤ) - 0 ≤ CACHE_TTL ∧
     (checkIpReputationStep [] (some "key") (.ok c7SampleResponse)
       "198.51.100.9".data 0).externalCalls = 1 ∧
     (checkIpReputationStep (checkIpReputationStep [] (some "key") (.ok c7SampleResponse)
         "198.51.100.9".data 0).cache none .networkError "198.51.100.9".data 1000).externalCalls = 0) := by
  have h1 := (c7_cache_ttl_single_call.1 [⟨"198.51.100.9".data, c7SampleRecord, 5⟩]
    "198.51.100.9".data 10 ⟨"198.51.100.9".data, c7SampleRecord, 5⟩ rfl).1
    (by norm_num [CACHE_TTL])
  have h2 := c7_cache_ttl_single_call.2 [] "key" none .networkError c7SampleResponse
    "198.51.100.9".data 0 1000 rfl rfl (by norm_num [CACHE_TTL])
  exact ⟨⟨rfl, by norm_num [CACHE_TTL], h1⟩, ⟨rfl, rfl, by norm_num [CACHE_TTL], h2.1, h2.2.2.1⟩⟩

/-! ### C8 — batch parse result invariant -/

/-- `parsedLines` counts exactly the collected entries. -/
theorem parseLogsAux_parsedLines_eq (lineParse : List Char → Option α)
    (lines : List (List Char)) (i : ℕ) :
    (parseLogsAux lineParse lines i).2.2 = (parseLogsAux lineParse lines i).1.length := by
  induction lines generalizing i with
  | nil => rfl
  | cons l rest ih =>
    unfold parseLogsAux
    by_cases h : (trimChars l).isEmpty
    · simpa [h] using ih (i + 1)
    · cases hp : lineParse l with
      | some p => simp [h, hp, ih (i + 1)]
      | none => simp [h, hp, ih (i + 1)]

/-- On all-blank input the walk collects nothing. -/
theorem parseLogsAux_all_blank (lineParse : List Char → Option α)
    (lines : List (List Char)) (i : ℕ)
    (h : ∀ l ∈ lines, (trimChars l).isEmpty = true) :
    parseLogsAux lineParse lines i = ([], [], 0) := by
  induction lines generalizing i with
  | nil => rfl
  | cons l rest ih =>
    unfold parseLogsAux
    rw [if_pos (h l (by simp))]
    exact ih (i + 1) (fun x hx => h x (List.mem_cons_of_mem _ hx))

/-- Claim C8: for every line parser and every input, `success` holds iff at
least one line parsed, `parsedLines` equals the number of returned entries,
and an empty or whitespace-only input yields `success = false`, no entries,
and `totalLines = 0`. -/
theorem c8_parse_result_invariant (lineParse : List Char → Option α)
    (content : List Char) :
    ((parseLogs lineParse content).success = true ↔
      0 < (parseLogs lineParse content).parsedLines) ∧
    (parseLogs lineParse content).parsedLines =
      (parseLogs lineParse content).entries.length ∧
    ((∀ l ∈ splitOnChar '\n' content, (trimChars l).isEmpty = true) →
      (parseLogs lineParse content).success = false ∧
      (parseLogs lineParse content).entries = [] ∧
      (parseLogs lineParse content).totalLines = 0 ∧
      (parseLogs lineParse content).parsedLines = 0) := by
  have hinv := parseLogsAux_parsedLines_eq lineParse (splitOnChar '\n' content) 0
  rcases haux : parseLogsAux lineParse (splitOnChar '\n' content) 0 with ⟨entries, errors, parsedLines⟩
  rw [haux] at hinv
  simp only at hinv
  unfold parseLogs
  dsimp only
  rw [haux]
  dsimp only
  refine ⟨by simp [hinv], hinv, ?_⟩
  intro hblank
  have h0 := parseLogsAux_all_blank lineParse (splitOnChar '\n' content) 0 hblank
  rw [haux] at h0
  simp only [Prod.mk.injEq] at h0
  obtain ⟨he, _herr, hn⟩ := h0
  subst he
  subst hn
  refine ⟨by simp, rfl, ?_, rfl⟩
  have hfil : (splitOnChar '\n' content).filter (fun l => !(trimChars l).isEmpty) = [] := by
    refine List.filter_eq_nil_iff.mpr ?_
    intro a ha
    simp [hblank a ha]
  simp [hfil]

/-- Claim C8 witness: whitespace-only input yields a failed result with no
entries and zero counted lines. -/
theorem c8_parse_result_invariant_witness :
    (∀ l ∈ splitOnChar '\n' " \n\t ".data, (trimChars l).isEmpty = true) ∧
    ((parseLogs (fun _ => (none : Option ℕ)) " \n\t ".data).success = false ∧
     (parseLogs (fun _ => (none : Option ℕ)) " \n\t ".data).entries = [] ∧
     (parseLogs (fun _ => (none : Option ℕ)) " \n\t ".data).totalLines = 0 ∧
     (parseLogs (fun _ => (none : Option ℕ)) " \n\t ".data).parsedLines = 0) := by
  have hb : ∀ l ∈ splitOnChar '\n' " \n\t ".data, (trimChars l).isEmpty = true := by decide
  exact ⟨hb, (c8_parse_result_invariant (fun _ => (none : Option ℕ)) " \n\t ".data).2.2 hb⟩

/-! ### C9 — keyword-based severity -/

/-- The code's `error` tier — `AUTH_FAILED_PATTERN` plus the three redundant
`includes` checks — collapses to the five-keyword alternation
failed/invalid/error/denied/rejected. -/
theorem errorTier_eq (l : List Char) :
    (authFailedPatternTest l || containsSub l "error".data ||
      containsSub l "failed".data || containsSub l "denied".data) =
    (containsSub l "failed".data || (containsSub l "invalid".data ||
      (containsSub l "error".data || (containsSub l "denied".data ||
        containsSub l "rejected".data)))) := by
  unfold authFailedPatternTest
  cases containsSub l "failed".data <;> cases containsSub l "invalid".data <;>
    cases containsSub l "error".data <;> cases containsSub l "denied".data <;>
    cases containsSub l "rejected".data <;> rfl

/-- Claim C9, counterexample: the message `"invalid user"` contains none of
the spec's keyword tiers (no `fail*`, `error` or `denied`), so §4.1 assigns
`info`, but `determineSeverity` returns `error` — its regex tier also matches
`invalid` (and `rejected`). -/
theorem c9_counterexample :
    determineSeverity "invalid user".data = "error" ∧
    specKeywordSeverity "invalid user".data = "info" := by
  constructor <;> rfl

/-- Claim C9 (amended): `determineSeverity` returns `critical` iff the
lowercased message contains one of critical/emergency/panic/fatal; otherwise
`error` iff it contains one of failed/invalid/error/denied/rejected (the
spec's fail*/error/denied tier is too narrow); otherwise `warning` iff it
contains one of warning/warn/blocked/suspicious; otherwise `info` — in that
priority order. -/
theorem c9_severity_keyword_tiers (m : List Char) :
    (determineSeverity m = "critical" ↔
      containsAnyKeyword m severityCriticalKeywords = true) ∧
    (determineSeverity m = "error" ↔
      containsAnyKeyword m severityCriticalKeywords = false ∧
      containsAnyKeyword m severityErrorKeywords = true) ∧
    (determineSeverity m = "warning" ↔
      containsAnyKeyword m severityCriticalKeywords = false ∧
      containsAnyKeyword m severityErrorKeywords = false ∧
      containsAnyKeyword m severityWarningKeywords = true) ∧
    (determineSeverity m = "info" ↔
      containsAnyKeyword m severityCriticalKeywords = false ∧
      containsAnyKeyword m severityErrorKeywords = false ∧
      containsAnyKeyword m severityWarningKeywords = false) := by
  have hcrit : (containsSub (lowerChars m) "critical".data ||
      containsSub (lowerChars m) "emergency".data ||
      containsSub (lowerChars m) "panic".data ||
      containsSub (lowerChars m) "fatal".data) =
      containsAnyKeyword m severityCriticalKeywords := by
    simp [containsAnyKeyword, severityCriticalKeywords, Bool.or_assoc]
  have herr : (authFailedPatternTest (lowerChars m) ||
      containsSub (lowerChars m) "error".data ||
      containsSub (lowerChars m) "failed".data ||
      containsSub (lowerChars m) "denied".data) =
      containsAnyKeyword m severityErrorKeywords := by
    unfold authFailedPatternTest containsAnyKeyword severityErrorKeywords
    simp only [List.any_cons, List.any_nil, Bool.or_false]
    cases containsSub (lowerChars m) "failed".data <;>
      cases containsSub (lowerChars m) "invalid".data <;>
      cases containsSub (lowerChars m) "error".data <;>
      cases containsSub (lowerChars m) "denied".data <;>
      cases containsSub (lowerChars m) "rejected".data <;> rfl
  have hwarn : (containsSub (lowerChars m) "warning".data ||
      containsSub (lowerChars m) "warn".data ||
      containsSub (lowerChars m) "blocked".data ||
      containsSub (lowerChars m) "suspicious".data) =
      containsAnyKeyword m severityWarningKeywords := by
    simp [containsAnyKeyword, severityWarningKeywords, Bool.or_assoc]
  unfold determineSeverity
  simp only []
  rw [hcrit, herr, hwarn]
  by_cases h1 : containsAnyKeyword m severityCriticalKeywords <;>
    by_cases h2 : containsAnyKeyword m severityErrorKeywords <;>
      by_cases h3 : containsAnyKeyword m severityWarningKeywords <;>
        simp [h1, h2, h3]

/-! ### C10 — severity at the parser interface is not a closed enum -/

/-- The raw JSON line for the C10 scenario (braces written as escapes):
`{"severity":"debug","message":"unauthorized access attempt to admin"}`. -/
def c10Line : String :=
  "\x7b\"severity\":\"debug\",\"message\":\"unauthorized access attempt to admin\"\x7d"

/-- The decoded object of `c10Line`. -/
def c10JsonObj : JsonLogObj :=
  { timestamp := none
    time := none
    ts := none
    source_ip := none
    sourceIp := none
    src := none
    message := some "unauthorized access attempt to admin"
    msg := none
    content := none
    type := none
    level := none
    severity := some "debug"
    stringified := c10Line.data }

/-- Claim C10: the severity field of a parsed event is NOT confined to
`info|warning|error|critical` — the line `c10Line` is structurally a JSON
line (brace-delimited and longer than 10 characters, so `parseSingleLine`
dispatches it to `parseJSONLog`), and the caller-supplied `severity` string
`"debug"` is passed through verbatim, leaving the closed vocabulary. -/
theorem c10_json_severity_passthrough :
    jsonLogShape c10Line.data = true ∧
    10 ≤ c10Line.data.length ∧
    (parseJSONLog c10JsonObj none).severity = "debug" ∧
    closedSeverities.contains (parseJSONLog c10JsonObj none).severity = false := by
  refine ⟨by decide, by decide, rfl, by decide⟩
